import Mathlib

/-!
Shallow embedding of `src/tun2.c`: a userspace cross-connect between two
TUN interfaces. The program consists of `tun_alloc` (open `/dev/net/tun`,
issue the `TUNSETIFF` ioctl, copy the assigned name back) and `main`
(allocate two interfaces, then loop: `select` on both fds, and for each
ready fd read one packet into the shared 16384-byte buffer and write it to
the other fd).

System calls and diagnostics are modelled as an event trace; the outcomes
of the calls (open/ioctl results, readiness, read data, write return
values) are supplied by oracle inputs, since they are decided by the
kernel.
-/

/-- Observable actions of the program: system calls issued (with their
oracle-given results) and diagnostics printed (`perror` and `printf`). -/
inductive Event where
  /-- `open("/dev/net/tun", O_RDWR)` returning `ret`. -/
  | sysOpen (ret : Int)
  /-- `ioctl(fd, TUNSETIFF, &ifr)` with the request's name and flags, returning `ret`. -/
  | sysIoctl (fd : Nat) (reqName : List Nat) (flags : Nat) (ret : Int)
  /-- `close(fd)`. -/
  | closeFd (fd : Nat)
  /-- `perror(op)`: an error diagnostic naming the failing operation. -/
  | errLog (op : String)
  /-- `printf("Created: %s\n", dev)`. -/
  | createdMsg (name : List Nat)
  /-- `select(nfds, &fds, 0, 0, 0)` returning `ret`. -/
  | sysSelect (ret : Int)
  /-- `read(fd, buf, sizeof(buf))`: `none` on a negative return, otherwise the bytes stored. -/
  | sysRead (fd : Nat) (res : Option (List Nat))
  /-- `printf("read %d from fd %d\n", len, fd)`. -/
  | traceRead (len : Nat) (fd : Nat)
  /-- `write(fd, buf, len)` passing `data` (exactly `len` bytes), returning `ret`. -/
  | sysWrite (fd : Nat) (data : List Nat) (ret : Int)
  deriving DecidableEq, Repr

/-- `IFNAMSIZ` from `<linux/if.h>`. -/
def IFNAMSIZ : Nat := 16

/-- `IFF_TUN` flag. -/
def IFF_TUN : Nat := 1

/-- `IFF_NO_PI` flag. -/
def IFF_NO_PI : Nat := 4096

/-- Kernel-side outcome of one `tun_alloc` call: the `open` fails; the
`open` yields `fd` but the `TUNSETIFF` ioctl fails; or both succeed and the
kernel reports `assigned` as the interface name in `ifr.ifr_name`. -/
inductive TunAllocOS where
  | openFail
  | ioctlFail (fd : Nat)
  | ok (fd : Nat) (assigned : List Nat)
  deriving DecidableEq, Repr

/-- Result of `tun_alloc`: the C return value, the caller's name buffer
after the call (a C string as a byte list), and the events performed. -/
structure TunAllocResult where
  ret : Int
  dev : List Nat
  events : List Event
  deriving DecidableEq, Repr

/-- The `ifr_name` field passed to the ioctl: `memset` zeroes it, then
`strncpy(ifr.ifr_name, dev, IFNAMSIZ)` runs only when `*dev` is nonzero. -/
def reqName (dev : List Nat) : List Nat :=
  if dev = [] then List.replicate IFNAMSIZ 0
  else dev.take IFNAMSIZ ++ List.replicate (IFNAMSIZ - (dev.take IFNAMSIZ).length) 0

/-- `tun_alloc(char *dev)` from `src/tun2.c:72-96`: open the control
device (on failure `perror("open"); return -1`), issue `TUNSETIFF` with
flags `IFF_TUN | IFF_NO_PI` (on failure `perror("ioctl"); close(fd);
return -1`), then `strcpy(dev, ifr.ifr_name)` and return the fd. -/
def tun_alloc (dev : List Nat) (os : TunAllocOS) : TunAllocResult :=
  match os with
  | .openFail =>
      { ret := -1, dev := dev, events := [.sysOpen (-1), .errLog "open"] }
  | .ioctlFail fd =>
      { ret := -1, dev := dev,
        events := [.sysOpen (Int.ofNat fd),
                   .sysIoctl fd (reqName dev) (IFF_TUN + IFF_NO_PI) (-1),
                   .errLog "ioctl", .closeFd fd] }
  | .ok fd assigned =>
      { ret := Int.ofNat fd, dev := assigned,
        events := [.sysOpen (Int.ofNat fd),
                   .sysIoctl fd (reqName dev) (IFF_TUN + IFF_NO_PI) 0] }

/-- The initial contents of `dev1` and `dev2` in `main`: `"tun%d"`. -/
def devTemplate : List Nat := [116, 117, 110, 37, 100]

/-- Outcome of `main`'s startup phase (`src/tun2.c:105-113`): the exit
status if `main` returned, whether the forwarding loop was reached, the
events performed, and the two fds on success. -/
structure StartupResult where
  exitCode : Option Nat
  loopEntered : Bool
  events : List Event
  fd1 : Int
  fd2 : Int
  deriving DecidableEq, Repr

/-- Startup phase of `main`: `fd1 = tun_alloc(dev1); if (fd1 < 0) return 1;`
print the created name; likewise for `fd2`; then enter the loop. -/
def mainStartup (os1 os2 : TunAllocOS) : StartupResult :=
  let r1 := tun_alloc devTemplate os1
  if r1.ret < 0 then
    { exitCode := some 1, loopEntered := false, events := r1.events,
      fd1 := r1.ret, fd2 := -1 }
  else
    let r2 := tun_alloc devTemplate os2
    if r2.ret < 0 then
      { exitCode := some 1, loopEntered := false,
        events := r1.events ++ [.createdMsg r1.dev] ++ r2.events,
        fd1 := r1.ret, fd2 := r2.ret }
    else
      { exitCode := none, loopEntered := true,
        events := r1.events ++ [.createdMsg r1.dev] ++ r2.events
                    ++ [.createdMsg r2.dev],
        fd1 := r1.ret, fd2 := r2.ret }

/-- `sizeof(buf)` for `unsigned char buf[16384]` (`src/tun2.c:102`). -/
def bufsize : Nat := 16384

/-- Kernel-side outcomes for one iteration of the forwarding loop:
whether `select` failed, which fds it reported ready, and (used only when
the corresponding call happens) the result of each read (`none` = negative
return, `some data` = the bytes delivered) and the return value of each
write. `wret2` is the return of the write to `fd2` (data read from `fd1`),
`wret1` of the write to `fd1`. -/
structure IterIn where
  selErr : Bool
  r1 : Bool
  r2 : Bool
  read1 : Option (List Nat)
  wret2 : Int
  read2 : Option (List Nat)
  wret1 : Int
  deriving DecidableEq, Repr

/-- One direction of the loop body (`src/tun2.c:134-143` and `145-154`):
`len = read(rfd, buf, sizeof(buf)); if (len < 0) perror("read"); else {
printf("read %d from fd %d\n", len, rfd); if (write(wfd, buf, len) < 0)
perror("write"); }`. Returns the events and the buffer afterwards; a read
stores `min(available, 16384)` bytes into the front of the buffer. -/
def serviceDir (rfd wfd : Nat) (buf : List Nat) (rres : Option (List Nat))
    (wret : Int) : List Event × List Nat :=
  match rres with
  | none => ([.sysRead rfd none, .errLog "read"], buf)
  | some data =>
      let stored := data.take bufsize
      let n := stored.length
      let buf2 := stored ++ buf.drop n
      let sent := buf2.take n
      ([.sysRead rfd (some stored), .traceRead n rfd,
        .sysWrite wfd sent wret] ++ (if wret < 0 then [.errLog "write"] else []),
       buf2)

/-- One iteration of `while (1)` (`src/tun2.c:115-155`): `select` on
`{fd1, fd2}`; on a negative return `perror("select"); continue;`;
otherwise service `fd1`'s direction first when ready, then `fd2`'s. -/
def loopIter (fd1 fd2 : Nat) (buf : List Nat) (inp : IterIn) :
    List Event × List Nat :=
  if inp.selErr then
    ([.sysSelect (-1), .errLog "select"], buf)
  else
    let d1 := if inp.r1 then serviceDir fd1 fd2 buf inp.read1 inp.wret2
              else ([], buf)
    let d2 := if inp.r2 then serviceDir fd2 fd1 d1.2 inp.read2 inp.wret1
              else ([], d1.2)
    (.sysSelect ((if inp.r1 then 1 else 0) + (if inp.r2 then 1 else 0))
       :: d1.1 ++ d2.1, d2.2)

/-- The loop run over a finite prefix of kernel outcomes: the events of
each iteration, in order, threading the packet buffer through. -/
def loopRun (fd1 fd2 : Nat) (buf : List Nat) : List IterIn → List Event
  | [] => []
  | inp :: rest =>
      (loopIter fd1 fd2 buf inp).1
        ++ loopRun fd1 fd2 (loopIter fd1 fd2 buf inp).2 rest

/-- Is `e` a read system call on fd `fd`? -/
def isReadFrom (fd : Nat) : Event → Bool
  | .sysRead f _ => f == fd
  | _ => false

/-- Number of read system calls on fd `fd` in `evs`. -/
def readsFrom (fd : Nat) (evs : List Event) : Nat :=
  (evs.filter (isReadFrom fd)).length

/-- Is `e` a write system call on fd `fd`? -/
def isWriteTo (fd : Nat) : Event → Bool
  | .sysWrite f _ _ => f == fd
  | _ => false

/-- Number of write system calls on fd `fd` in `evs`. -/
def writesTo (fd : Nat) (evs : List Event) : Nat :=
  (evs.filter (isWriteTo fd)).length

/-- The `perror` diagnostics among `evs`. -/
def errLogs (evs : List Event) : List Event :=
  evs.filter fun e => match e with | .errLog _ => true | _ => false

/-- Number of `close` calls on fd `fd` in `evs`. -/
def closesOf (fd : Nat) (evs : List Event) : Nat :=
  (evs.filter fun e => e == Event.closeFd fd).length

/-- Number of per-packet `printf` traces (`"read %d from fd %d"`) in `evs`. -/
def traceCount (evs : List Event) : Nat :=
  (evs.filter fun e => match e with | .traceRead _ _ => true | _ => false).length

/-- Number of per-packet traces naming fd `fd` in `evs`. -/
def tracesFor (fd : Nat) (evs : List Event) : Nat :=
  (evs.filter fun e => match e with | .traceRead _ f => f == fd | _ => false).length

/-- Does this allocation outcome make `tun_alloc` fail? -/
def allocFails : TunAllocOS → Bool
  | .ok _ _ => false
  | _ => true

/-- In a real process the control fd opened by a later `tun_alloc` call is
distinct from an fd still held by the caller; this predicate states that
the outcome `os` does not reuse fd `f`. -/
def avoidsFd : TunAllocOS → Nat → Bool
  | .ioctlFail g, f => g != f
  | .ok g _, f => g != f
  | .openFail, _ => true

/-- Number of successful reads serviced in one iteration's input. -/
def succReads (inp : IterIn) : Nat :=
  (if inp.r1 then (if inp.read1.isSome then 1 else 0) else 0)
    + (if inp.r2 then (if inp.read2.isSome then 1 else 0) else 0)

theorem readsFrom_append (fd : Nat) (l1 l2 : List Event) :
    readsFrom fd (l1 ++ l2) = readsFrom fd l1 + readsFrom fd l2 := by
  simp [readsFrom, List.filter_append]

theorem writesTo_append (fd : Nat) (l1 l2 : List Event) :
    writesTo fd (l1 ++ l2) = writesTo fd l1 + writesTo fd l2 := by
  simp [writesTo, List.filter_append]

theorem readsFrom_serviceDir (fd rfd wfd : Nat) (buf : List Nat)
    (rres : Option (List Nat)) (wret : Int) :
    readsFrom fd (serviceDir rfd wfd buf rres wret).1
      = if rfd = fd then 1 else 0 := by
  cases rres with
  | none => by_cases h : rfd = fd <;> simp [serviceDir, readsFrom, isReadFrom, h]
  | some data =>
      by_cases h : rfd = fd <;> by_cases hw : wret < 0 <;>
        simp [serviceDir, readsFrom, isReadFrom, h, hw]

theorem writesTo_serviceDir_some (fd rfd wfd : Nat) (buf : List Nat)
    (data : List Nat) (wret : Int) :
    writesTo fd (serviceDir rfd wfd buf (some data) wret).1
      = if wfd = fd then 1 else 0 := by
  by_cases h : wfd = fd <;> by_cases hw : wret < 0 <;>
    simp [serviceDir, writesTo, isWriteTo, h, hw]

theorem writesTo_serviceDir_none (fd rfd wfd : Nat) (buf : List Nat)
    (wret : Int) :
    writesTo fd (serviceDir rfd wfd buf none wret).1 = 0 := by
  simp [serviceDir, writesTo, isWriteTo]

theorem traceCount_serviceDir (rfd wfd : Nat) (buf : List Nat)
    (rres : Option (List Nat)) (wret : Int) :
    traceCount (serviceDir rfd wfd buf rres wret).1
      = if rres.isSome then 1 else 0 := by
  cases rres with
  | none => simp [serviceDir, traceCount]
  | some data => by_cases hw : wret < 0 <;> simp [serviceDir, traceCount, hw]


/-- C4: in `tun_alloc`, if the `TUNSETIFF` ioctl fails after the control
device was opened, the function returns the error result `-1` and the
partially-opened handle is closed, the `close` being the last action
before returning. -/
theorem c4_ioctl_fail_closes_handle (dev : List Nat) (f : Nat) :
    (tun_alloc dev (TunAllocOS.ioctlFail f)).ret = -1 ∧
    (tun_alloc dev (TunAllocOS.ioctlFail f)).events.getLast?
      = some (Event.closeFd f) ∧
    closesOf f (tun_alloc dev (TunAllocOS.ioctlFail f)).events = 1 := by
  refine ⟨rfl, rfl, ?_⟩
  simp [tun_alloc, closesOf]

/-- C9: `tun_alloc` returns the same error value `-1` whether the open of
the control device fails or the configuration ioctl fails, so the caller
cannot distinguish the two failure kinds, and `main` exits with status 1
identically in both cases. -/
theorem c9_indistinguishable_failures (dev : List Nat) (f : Nat)
    (os2 : TunAllocOS) :
    (tun_alloc dev TunAllocOS.openFail).ret = -1 ∧
    (tun_alloc dev (TunAllocOS.ioctlFail f)).ret = -1 ∧
    (mainStartup TunAllocOS.openFail os2).exitCode = some 1 ∧
    (mainStartup (TunAllocOS.ioctlFail f) os2).exitCode = some 1 ∧
    (mainStartup TunAllocOS.openFail os2).loopEntered = false ∧
    (mainStartup (TunAllocOS.ioctlFail f) os2).loopEntered = false := by
  refine ⟨rfl, rfl, ?_, ?_, ?_, ?_⟩ <;> simp [mainStartup, tun_alloc]

/-- C10: on every failure path of `tun_alloc` the caller's name buffer is
left unchanged; the buffer is overwritten with the OS-assigned interface
name exactly on the success path, where the non-negative handle is
returned. -/
theorem c10_name_buffer_frame (dev : List Nat) (os : TunAllocOS) :
    ((tun_alloc dev os).ret < 0 → (tun_alloc dev os).dev = dev) ∧
    (∀ f nm, os = TunAllocOS.ok f nm →
      (tun_alloc dev os).dev = nm ∧ (tun_alloc dev os).ret = Int.ofNat f ∧
      0 ≤ (tun_alloc dev os).ret) := by
  cases os with
  | openFail => exact ⟨fun _ => rfl, fun f nm h => by cases h⟩
  | ioctlFail g => exact ⟨fun _ => rfl, fun f nm h => by cases h⟩
  | ok g nm0 =>
      refine ⟨fun h => absurd h (by simp [tun_alloc]), ?_⟩
      rintro f nm ⟨⟩
      exact ⟨rfl, rfl, by simp [tun_alloc]⟩

/-- Witness for C10 at concrete inputs: a failing allocation leaves the
buffer `"tun%d"` unchanged, and a succeeding one stores the assigned name. -/
theorem c10_name_buffer_frame_witness :
    (tun_alloc devTemplate TunAllocOS.openFail).dev = devTemplate ∧
    (tun_alloc devTemplate (TunAllocOS.ok 3 [116, 117, 110, 48])).dev
      = [116, 117, 110, 48] :=
  ⟨(c10_name_buffer_frame devTemplate TunAllocOS.openFail).1 (by decide),
   ((c10_name_buffer_frame devTemplate
      (TunAllocOS.ok 3 [116, 117, 110, 48])).2 3 [116, 117, 110, 48] rfl).1⟩

/-- C2 counterexample: with the first allocation succeeding (fd 3) and the
second failing, `main` returns 1 without entering the loop, but performs
no `close(3)`: the first handle is not released before exit, contrary to
the claim. -/
theorem c2_no_close_counterexample :
    (mainStartup (TunAllocOS.ok 3 [116, 117, 110, 48])
        TunAllocOS.openFail).exitCode = some 1 ∧
    (mainStartup (TunAllocOS.ok 3 [116, 117, 110, 48])
        TunAllocOS.openFail).loopEntered = false ∧
    closesOf 3 (mainStartup (TunAllocOS.ok 3 [116, 117, 110, 48])
        TunAllocOS.openFail).events = 0 := by decide

/-- C2 (amended): if either interface allocation fails during startup the
process exits with status 1 and the forwarding loop is never entered; when
the second allocation fails after the first succeeded, `main` issues no
`close` of the first handle before exiting (it is released only by process
termination). -/
theorem c2_startup_failure_exits (os1 os2 : TunAllocOS)
    (h : allocFails os1 = true ∨ allocFails os2 = true) :
    (mainStartup os1 os2).exitCode = some 1 ∧
    (mainStartup os1 os2).loopEntered = false ∧
    (∀ f nm, os1 = TunAllocOS.ok f nm → avoidsFd os2 f = true →
      closesOf f (mainStartup os1 os2).events = 0) := by
  cases os1 with
  | openFail =>
      exact ⟨rfl, rfl, fun f nm hh => by cases hh⟩
  | ioctlFail g =>
      exact ⟨rfl, rfl, fun f nm hh => by cases hh⟩
  | ok g nm0 =>
      have hg : ¬ ((g : Int) < 0) := not_lt.mpr (Int.natCast_nonneg g)
      have h2 : allocFails os2 = true := by
        rcases h with h | h
        · simp [allocFails] at h
        · exact h
      cases os2 with
      | openFail =>
          refine ⟨by simp [mainStartup, tun_alloc, hg],
            by simp [mainStartup, tun_alloc, hg], ?_⟩
          rintro f nm ⟨⟩ _
          simp [mainStartup, tun_alloc, hg, closesOf,
            List.filter_cons, List.filter_nil]
      | ioctlFail g2 =>
          refine ⟨by simp [mainStartup, tun_alloc, hg],
            by simp [mainStartup, tun_alloc, hg], ?_⟩
          rintro f nm ⟨⟩ hav
          have hne : g2 ≠ g := by
            simpa [avoidsFd] using hav
          simp [mainStartup, tun_alloc, hg, closesOf,
            List.filter_cons, List.filter_nil, hne]
      | ok g2 nm2 => simp [allocFails] at h2

/-- Witness for C2 (amended) at a concrete input: first allocation yields
fd 4, the second fails at the ioctl with control fd 5. -/
theorem c2_startup_failure_exits_witness :
    (mainStartup (TunAllocOS.ok 4 [116, 117, 110, 48])
        (TunAllocOS.ioctlFail 5)).exitCode = some 1 ∧
    (mainStartup (TunAllocOS.ok 4 [116, 117, 110, 48])
        (TunAllocOS.ioctlFail 5)).loopEntered = false ∧
    closesOf 4 (mainStartup (TunAllocOS.ok 4 [116, 117, 110, 48])
        (TunAllocOS.ioctlFail 5)).events = 0 := by
  have T := c2_startup_failure_exits (TunAllocOS.ok 4 [116, 117, 110, 48])
    (TunAllocOS.ioctlFail 5) (Or.inr (by decide))
  exact ⟨T.1, T.2.1, T.2.2 4 [116, 117, 110, 48] rfl (by decide)⟩

theorem readsFrom_cons_nonread (fd : Nat) (e : Event) (l : List Event)
    (h : isReadFrom fd e = false) : readsFrom fd (e :: l) = readsFrom fd l := by
  simp [readsFrom, List.filter_cons, h]

theorem writesTo_cons_nonwrite (fd : Nat) (e : Event) (l : List Event)
    (h : isWriteTo fd e = false) : writesTo fd (e :: l) = writesTo fd l := by
  simp [writesTo, List.filter_cons, h]

theorem errLog_read_serviceDir (rfd wfd : Nat) (buf : List Nat)
    (rres : Option (List Nat)) (wret : Int) :
    Event.errLog "read" ∈ (serviceDir rfd wfd buf rres wret).1
      ↔ rres = none := by
  cases rres with
  | none => simp [serviceDir]
  | some d => by_cases hw : wret < 0 <;> simp [serviceDir, hw]

theorem errLog_write_serviceDir (rfd wfd : Nat) (buf : List Nat)
    (rres : Option (List Nat)) (wret : Int) :
    Event.errLog "write" ∈ (serviceDir rfd wfd buf rres wret).1
      ↔ (rres.isSome = true ∧ wret < 0) := by
  cases rres with
  | none => simp [serviceDir]
  | some d => by_cases hw : wret < 0 <;> simp [serviceDir, hw]

/-- C1: for each direction of the cross-connect — `fd1` read and `fd2`
written, or `fd2` read and `fd1` written — whenever the handle is ready
and its read returns `n ≤ 16384` bytes, the iteration's trace contains
the read immediately followed by the per-packet printf and a write to the
paired handle carrying exactly those `n` bytes, with no other read of the
source handle anywhere in the iteration; and a run's events are the
iterations' events in order, so the packet is handed to the paired handle
before the next read from the source handle is attempted. -/
theorem c1_verbatim_forwarding (fd1 fd2 : Nat) (buf : List Nat)
    (inp : IterIn) (hfd : fd1 ≠ fd2) (hsel : inp.selErr = false) :
    (∀ data, inp.r1 = true → inp.read1 = some data → data.length ≤ bufsize →
      ∃ pre post,
        (loopIter fd1 fd2 buf inp).1 =
          pre ++ [Event.sysRead fd1 (some data),
            Event.traceRead data.length fd1,
            Event.sysWrite fd2 data inp.wret2] ++ post ∧
        readsFrom fd1 pre = 0 ∧ readsFrom fd1 post = 0) ∧
    (∀ data, inp.r2 = true → inp.read2 = some data → data.length ≤ bufsize →
      ∃ pre post,
        (loopIter fd1 fd2 buf inp).1 =
          pre ++ [Event.sysRead fd2 (some data),
            Event.traceRead data.length fd2,
            Event.sysWrite fd1 data inp.wret1] ++ post ∧
        readsFrom fd2 pre = 0 ∧ readsFrom fd2 post = 0) ∧
    (∀ rest, loopRun fd1 fd2 buf (inp :: rest)
      = (loopIter fd1 fd2 buf inp).1
        ++ loopRun fd1 fd2 (loopIter fd1 fd2 buf inp).2 rest) := by
  refine ⟨?_, ?_, fun rest => rfl⟩
  · intro data hr1 hdata hlen
    have hstored : data.take bufsize = data := List.take_of_length_le hlen
    have hsd1 : ∀ B : List Nat, serviceDir fd1 fd2 B (some data) inp.wret2
        = ([Event.sysRead fd1 (some data), Event.traceRead data.length fd1,
            Event.sysWrite fd2 data inp.wret2]
            ++ (if inp.wret2 < 0 then [Event.errLog "write"] else []),
           data ++ B.drop data.length) := fun B => by
      simp [serviceDir, hstored]
    cases hr2 : inp.r2 with
    | false =>
        refine ⟨[Event.sysSelect 1],
          (if inp.wret2 < 0 then [Event.errLog "write"] else []), ?_, ?_, ?_⟩
        · simp [loopIter, hsel, hr1, hr2, hdata, hsd1]
        · simp [readsFrom, isReadFrom]
        · by_cases hw : inp.wret2 < 0 <;> simp [readsFrom, isReadFrom, hw]
    | true =>
        refine ⟨[Event.sysSelect 2],
          (if inp.wret2 < 0 then [Event.errLog "write"] else [])
            ++ (serviceDir fd2 fd1 (data ++ buf.drop data.length)
                  inp.read2 inp.wret1).1, ?_, ?_, ?_⟩
        · simp [loopIter, hsel, hr1, hr2, hdata, hsd1]
        · simp [readsFrom, isReadFrom]
        · have h1 : readsFrom fd1
              (if inp.wret2 < 0 then [Event.errLog "write"] else []) = 0 := by
            by_cases hw : inp.wret2 < 0 <;> simp [readsFrom, isReadFrom, hw]
          have h2 : readsFrom fd1 (serviceDir fd2 fd1
              (data ++ buf.drop data.length) inp.read2 inp.wret1).1 = 0 := by
            rw [readsFrom_serviceDir]
            simp [Ne.symm hfd]
          rw [readsFrom_append, h1, h2]
  · intro data hr2 hdata hlen
    have hstored : data.take bufsize = data := List.take_of_length_le hlen
    have hsd2 : ∀ B : List Nat, serviceDir fd2 fd1 B (some data) inp.wret1
        = ([Event.sysRead fd2 (some data), Event.traceRead data.length fd2,
            Event.sysWrite fd1 data inp.wret1]
            ++ (if inp.wret1 < 0 then [Event.errLog "write"] else []),
           data ++ B.drop data.length) := fun B => by
      simp [serviceDir, hstored]
    cases hr1 : inp.r1 with
    | false =>
        refine ⟨[Event.sysSelect 1],
          (if inp.wret1 < 0 then [Event.errLog "write"] else []), ?_, ?_, ?_⟩
        · simp [loopIter, hsel, hr1, hr2, hdata, hsd2]
        · simp [readsFrom, isReadFrom]
        · by_cases hw : inp.wret1 < 0 <;> simp [readsFrom, isReadFrom, hw]
    | true =>
        refine ⟨Event.sysSelect 2
            :: (serviceDir fd1 fd2 buf inp.read1 inp.wret2).1,
          (if inp.wret1 < 0 then [Event.errLog "write"] else []), ?_, ?_, ?_⟩
        · simp [loopIter, hsel, hr1, hr2, hdata, hsd2]
        · rw [readsFrom_cons_nonread _ _ _ (by simp [isReadFrom]),
            readsFrom_serviceDir]
          simp [hfd]
        · by_cases hw : inp.wret1 < 0 <;> simp [readsFrom, isReadFrom, hw]

/-- Witness for C1: fd1 = 3 and fd2 = 4 both ready in one iteration, fd 3
delivering `[10, 20]` (forwarded verbatim to fd 4) and fd 4 delivering
`[7]` (forwarded verbatim to fd 3). -/
theorem c1_verbatim_forwarding_witness :
    (∃ pre post,
      (loopIter 3 4 [0, 0]
          ⟨false, true, true, some [10, 20], 5, some [7], -1⟩).1 =
        pre ++ [Event.sysRead 3 (some [10, 20]), Event.traceRead 2 3,
          Event.sysWrite 4 [10, 20] 5] ++ post ∧
      readsFrom 3 pre = 0 ∧ readsFrom 3 post = 0) ∧
    (∃ pre post,
      (loopIter 3 4 [0, 0]
          ⟨false, true, true, some [10, 20], 5, some [7], -1⟩).1 =
        pre ++ [Event.sysRead 4 (some [7]), Event.traceRead 1 4,
          Event.sysWrite 3 [7] (-1)] ++ post ∧
      readsFrom 4 pre = 0 ∧ readsFrom 4 post = 0) :=
  have T := c1_verbatim_forwarding 3 4 [0, 0]
    ⟨false, true, true, some [10, 20], 5, some [7], -1⟩ (by decide) rfl
  ⟨T.1 [10, 20] rfl rfl (by decide), T.2.1 [7] rfl rfl (by decide)⟩

/-- C3 counterexample: with fd 3 ready and the read returning 0 bytes, the
loop body takes the non-error branch and still calls `write(4, buf, 0)` —
exactly one write to the paired handle is performed, contradicting the
claim that no write is performed for that direction. No error is logged. -/
theorem c3_zero_read_counterexample :
    writesTo 4 (loopIter 3 4 []
        ⟨false, true, false, some [], 0, none, 0⟩).1 = 1 ∧
    Event.sysWrite 4 [] 0 ∈ (loopIter 3 4 []
        ⟨false, true, false, some [], 0, none, 0⟩).1 ∧
    errLogs (loopIter 3 4 []
        ⟨false, true, false, some [], 0, none, 0⟩).1 = [] := by decide

/-- C3 (amended): on either direction — and also when both handles are
ready in the same wake — a zero-length read from a ready handle is treated
as a non-error, but the loop does not skip the write: a zero-length write
to the paired handle is performed for that direction in that iteration.
`perror("read")` appears in an iteration exactly when some serviced
direction's read returned a negative value, so a zero-length read never
produces an error log. -/
theorem c3_zero_read_zero_write (fd1 fd2 : Nat) (buf : List Nat)
    (inp : IterIn) (hsel : inp.selErr = false) :
    (inp.r1 = true → inp.read1 = some [] →
      Event.sysWrite fd2 [] inp.wret2 ∈ (loopIter fd1 fd2 buf inp).1) ∧
    (inp.r2 = true → inp.read2 = some [] →
      Event.sysWrite fd1 [] inp.wret1 ∈ (loopIter fd1 fd2 buf inp).1) ∧
    (Event.errLog "read" ∈ (loopIter fd1 fd2 buf inp).1 ↔
      (inp.r1 = true ∧ inp.read1 = none) ∨
      (inp.r2 = true ∧ inp.read2 = none)) := by
  refine ⟨?_, ?_, ?_⟩
  · intro hr1 hrd1
    cases hr2 : inp.r2 <;> by_cases hw : inp.wret2 < 0 <;>
      simp [loopIter, hsel, hr1, hr2, hrd1, serviceDir, hw]
  · intro hr2 hrd2
    cases hr1 : inp.r1 <;> by_cases hw : inp.wret1 < 0 <;>
      simp [loopIter, hsel, hr1, hr2, hrd2, serviceDir, hw]
  · cases hr1 : inp.r1 <;> cases hr2 : inp.r2 <;>
      simp [loopIter, hsel, hr1, hr2, errLog_read_serviceDir]

/-- Witness for C3 (amended): both handles ready, both reads returning 0
bytes; both zero-length writes happen and no read error is logged. -/
theorem c3_zero_read_zero_write_witness :
    Event.sysWrite 6 [] 2 ∈ (loopIter 5 6 [1]
        ⟨false, true, true, some [], 2, some [], 3⟩).1 ∧
    Event.sysWrite 5 [] 3 ∈ (loopIter 5 6 [1]
        ⟨false, true, true, some [], 2, some [], 3⟩).1 ∧
    Event.errLog "read" ∉ (loopIter 5 6 [1]
        ⟨false, true, true, some [], 2, some [], 3⟩).1 :=
  have T := c3_zero_read_zero_write 5 6 [1]
    ⟨false, true, true, some [], 2, some [], 3⟩ rfl
  ⟨T.1 rfl rfl, T.2.1 rfl rfl, fun h => by
    rcases T.2.2.mp h with ⟨_, h2⟩ | ⟨_, h2⟩ <;> cases h2⟩

/-- C5 counterexample: a 3-byte packet is read from fd 3 and the write to
fd 4 returns 1 (a short write). The write is not retried — exactly one
write call occurs — but, contrary to the claim, nothing is logged: the
iteration emits no `perror` at all, because the code only checks
`write(...) < 0`. -/
theorem c5_short_write_counterexample :
    Event.sysWrite 4 [7, 8, 9] 1 ∈ (loopIter 3 4 []
        ⟨false, true, false, some [7, 8, 9], 1, none, 0⟩).1 ∧
    writesTo 4 (loopIter 3 4 []
        ⟨false, true, false, some [7, 8, 9], 1, none, 0⟩).1 = 1 ∧
    errLogs (loopIter 3 4 []
        ⟨false, true, false, some [7, 8, 9], 1, none, 0⟩).1 = [] := by decide

/-- C5 (amended): in either direction — and also when both handles are
ready in the same wake — a short (partial) write is not retried, chunked,
or completed: exactly one write call is issued for a serviced successful
read, and it carries the full packet just read. It is not logged either:
`perror("write")` appears in an iteration exactly when some serviced
direction's write returned a negative value, so a short (non-negative)
return produces no log. -/
theorem c5_short_write_ignored (fd1 fd2 : Nat) (buf : List Nat)
    (inp : IterIn) (hfd : fd1 ≠ fd2) (hsel : inp.selErr = false) :
    (∀ data, inp.r1 = true → inp.read1 = some data → data.length ≤ bufsize →
      writesTo fd2 (loopIter fd1 fd2 buf inp).1 = 1 ∧
      Event.sysWrite fd2 data inp.wret2 ∈ (loopIter fd1 fd2 buf inp).1) ∧
    (∀ data, inp.r2 = true → inp.read2 = some data → data.length ≤ bufsize →
      writesTo fd1 (loopIter fd1 fd2 buf inp).1 = 1 ∧
      Event.sysWrite fd1 data inp.wret1 ∈ (loopIter fd1 fd2 buf inp).1) ∧
    (Event.errLog "write" ∈ (loopIter fd1 fd2 buf inp).1 ↔
      (inp.r1 = true ∧ inp.read1.isSome = true ∧ inp.wret2 < 0) ∨
      (inp.r2 = true ∧ inp.read2.isSome = true ∧ inp.wret1 < 0)) := by
  refine ⟨?_, ?_, ?_⟩
  · intro data h1 h2 hlen
    have hstored : data.take bufsize = data := List.take_of_length_le hlen
    constructor
    · cases hr2 : inp.r2 with
      | false =>
          have he : (loopIter fd1 fd2 buf inp).1 = Event.sysSelect 1
              :: (serviceDir fd1 fd2 buf (some data) inp.wret2).1 := by
            simp [loopIter, hsel, h1, hr2, h2]
          rw [he, writesTo_cons_nonwrite _ _ _ (by simp [isWriteTo]),
            writesTo_serviceDir_some]
          simp
      | true =>
          have he : (loopIter fd1 fd2 buf inp).1 = Event.sysSelect 2
              :: ((serviceDir fd1 fd2 buf (some data) inp.wret2).1
                ++ (serviceDir fd2 fd1
                      (serviceDir fd1 fd2 buf (some data) inp.wret2).2
                      inp.read2 inp.wret1).1) := by
            simp [loopIter, hsel, h1, hr2, h2]
          rw [he, writesTo_cons_nonwrite _ _ _ (by simp [isWriteTo]),
            writesTo_append, writesTo_serviceDir_some]
          cases hrd2 : inp.read2 with
          | none => rw [writesTo_serviceDir_none]; simp
          | some d => rw [writesTo_serviceDir_some]; simp [hfd]
    · cases hr2 : inp.r2 <;>
        simp [loopIter, hsel, h1, hr2, h2, serviceDir, hstored]
  · intro data h1 h2 hlen
    have hstored : data.take bufsize = data := List.take_of_length_le hlen
    constructor
    · cases hr1 : inp.r1 with
      | false =>
          have he : (loopIter fd1 fd2 buf inp).1 = Event.sysSelect 1
              :: (serviceDir fd2 fd1 buf (some data) inp.wret1).1 := by
            simp [loopIter, hsel, hr1, h1, h2]
          rw [he, writesTo_cons_nonwrite _ _ _ (by simp [isWriteTo]),
            writesTo_serviceDir_some]
          simp
      | true =>
          have he : (loopIter fd1 fd2 buf inp).1 = Event.sysSelect 2
              :: ((serviceDir fd1 fd2 buf inp.read1 inp.wret2).1
                ++ (serviceDir fd2 fd1
                      (serviceDir fd1 fd2 buf inp.read1 inp.wret2).2
                      (some data) inp.wret1).1) := by
            simp [loopIter, hsel, hr1, h1, h2]
          rw [he, writesTo_cons_nonwrite _ _ _ (by simp [isWriteTo]),
            writesTo_append]
          cases hrd1 : inp.read1 with
          | none =>
              rw [writesTo_serviceDir_none, writesTo_serviceDir_some]
              simp
          | some d =>
              rw [writesTo_serviceDir_some, writesTo_serviceDir_some]
              simp [Ne.symm hfd]
    · cases hr1 : inp.r1 <;>
        simp [loopIter, hsel, hr1, h1, h2, serviceDir, hstored]
  · cases hr1 : inp.r1 <;> cases hr2 : inp.r2 <;>
      simp [loopIter, hsel, hr1, hr2, errLog_write_serviceDir]

/-- Witness for C5 (amended): both directions short in one iteration — a
3-byte packet whose write to fd 4 returns 1 and a 2-byte packet whose
write to fd 3 returns 0; one full-packet write call each, and no
`perror("write")`. -/
theorem c5_short_write_ignored_witness :
    writesTo 4 (loopIter 3 4 []
        ⟨false, true, true, some [7, 8, 9], 1, some [4, 5], 0⟩).1 = 1 ∧
    Event.sysWrite 4 [7, 8, 9] 1 ∈ (loopIter 3 4 []
        ⟨false, true, true, some [7, 8, 9], 1, some [4, 5], 0⟩).1 ∧
    writesTo 3 (loopIter 3 4 []
        ⟨false, true, true, some [7, 8, 9], 1, some [4, 5], 0⟩).1 = 1 ∧
    Event.sysWrite 3 [4, 5] 0 ∈ (loopIter 3 4 []
        ⟨false, true, true, some [7, 8, 9], 1, some [4, 5], 0⟩).1 ∧
    Event.errLog "write" ∉ (loopIter 3 4 []
        ⟨false, true, true, some [7, 8, 9], 1, some [4, 5], 0⟩).1 :=
  have T := c5_short_write_ignored 3 4 []
    ⟨false, true, true, some [7, 8, 9], 1, some [4, 5], 0⟩ (by decide) rfl
  ⟨(T.1 [7, 8, 9] rfl rfl (by decide)).1, (T.1 [7, 8, 9] rfl rfl (by decide)).2,
   (T.2.1 [4, 5] rfl rfl (by decide)).1, (T.2.1 [4, 5] rfl rfl (by decide)).2,
   fun h => by
     rcases T.2.2.mp h with ⟨_, _, h3⟩ | ⟨_, _, h3⟩ <;>
       exact absurd h3 (by decide)⟩

/-- C6: no steady-state error terminates the loop. A `select` error is
logged and the iteration does nothing else (the wait is simply retried);
a read error on either handle is logged and no write to its paired handle
happens for that direction; a write error in either direction is logged;
and in every case the run continues with the next iteration's input. -/
theorem c6_steady_state_errors_contained (fd1 fd2 : Nat) (buf : List Nat)
    (inp : IterIn) (hfd : fd1 ≠ fd2) :
    (inp.selErr = true →
      (loopIter fd1 fd2 buf inp).1
        = [Event.sysSelect (-1), Event.errLog "select"] ∧
      (loopIter fd1 fd2 buf inp).2 = buf) ∧
    (inp.selErr = false → inp.r1 = true → inp.read1 = none →
      Event.errLog "read" ∈ (loopIter fd1 fd2 buf inp).1 ∧
      writesTo fd2 (loopIter fd1 fd2 buf inp).1 = 0) ∧
    (inp.selErr = false → inp.r2 = true → inp.read2 = none →
      Event.errLog "read" ∈ (loopIter fd1 fd2 buf inp).1 ∧
      writesTo fd1 (loopIter fd1 fd2 buf inp).1 = 0) ∧
    (inp.selErr = false → inp.r1 = true → ∀ data, inp.read1 = some data →
      inp.wret2 < 0 →
      Event.errLog "write" ∈ (loopIter fd1 fd2 buf inp).1) ∧
    (inp.selErr = false → inp.r2 = true → ∀ data, inp.read2 = some data →
      inp.wret1 < 0 →
      Event.errLog "write" ∈ (loopIter fd1 fd2 buf inp).1) ∧
    (∀ rest, loopRun fd1 fd2 buf (inp :: rest)
      = (loopIter fd1 fd2 buf inp).1
        ++ loopRun fd1 fd2 (loopIter fd1 fd2 buf inp).2 rest) := by
  refine ⟨?_, ?_, ?_, ?_, ?_, fun rest => rfl⟩
  · intro hsel
    exact ⟨by simp [loopIter, hsel], by simp [loopIter, hsel]⟩
  · intro hsel hr1 hrd
    constructor
    · simp [loopIter, hsel, hr1, hrd, serviceDir]
    · have hd2 : writesTo fd2
          (if inp.r2 then (serviceDir fd2 fd1 buf inp.read2 inp.wret1).1
           else []) = 0 := by
        cases hr2 : inp.r2 with
        | false => simp [writesTo]
        | true =>
            cases hrd2 : inp.read2 with
            | none => simp [writesTo_serviceDir_none]
            | some d => simp [writesTo_serviceDir_some, hfd]
      have he : (loopIter fd1 fd2 buf inp).1
          = Event.sysSelect ((1 : Int) + (if inp.r2 then 1 else 0))
            :: ([Event.sysRead fd1 none, Event.errLog "read"]
              ++ (if inp.r2 then
                    (serviceDir fd2 fd1 buf inp.read2 inp.wret1).1
                  else [])) := by
        cases hr2 : inp.r2 <;> simp [loopIter, hsel, hr1, hr2, hrd, serviceDir]
      rw [he, writesTo_cons_nonwrite _ _ _ (by simp [isWriteTo]),
        writesTo_append, hd2]
      simp [writesTo, isWriteTo]
  · intro hsel hr2 hrd
    constructor
    · cases hr1 : inp.r1 <;>
        simp [loopIter, hsel, hr1, hr2, hrd, serviceDir]
    · have hd1 : writesTo fd1
          (if inp.r1 then (serviceDir fd1 fd2 buf inp.read1 inp.wret2).1
           else []) = 0 := by
        cases hr1 : inp.r1 with
        | false => simp [writesTo]
        | true =>
            cases hrd1 : inp.read1 with
            | none => simp [writesTo_serviceDir_none]
            | some d => simp [writesTo_serviceDir_some, Ne.symm hfd]
      have he : (loopIter fd1 fd2 buf inp).1
          = Event.sysSelect ((if inp.r1 then 1 else 0) + (1 : Int))
            :: ((if inp.r1 then
                  (serviceDir fd1 fd2 buf inp.read1 inp.wret2).1
                 else [])
              ++ [Event.sysRead fd2 none, Event.errLog "read"]) := by
        cases hr1 : inp.r1 <;> simp [loopIter, hsel, hr1, hr2, hrd, serviceDir]
      rw [he, writesTo_cons_nonwrite _ _ _ (by simp [isWriteTo]),
        writesTo_append, hd1]
      simp [writesTo, isWriteTo]
  · intro hsel hr1 data hrd hw
    cases hr2 : inp.r2 <;>
      simp [loopIter, hsel, hr1, hr2, hrd, serviceDir, hw]
  · intro hsel hr2 data hrd hw
    cases hr1 : inp.r1 <;>
      simp [loopIter, hsel, hr1, hr2, hrd, serviceDir, hw]

/-- Witness for C6 exercising every failure family at fd1 = 3, fd2 = 4:
a select error; an fd1 read error while fd2 forwards normally; an fd2
read error while fd1 forwards normally; a write error in each direction;
and the run continuing past the select error. -/
theorem c6_steady_state_errors_contained_witness :
    (loopIter 3 4 [9] ⟨true, false, false, none, 0, none, 0⟩).1
      = [Event.sysSelect (-1), Event.errLog "select"] ∧
    (loopIter 3 4 [9] ⟨true, false, false, none, 0, none, 0⟩).2 = [9] ∧
    (Event.errLog "read" ∈ (loopIter 3 4 [9]
        ⟨false, true, true, none, 0, some [5], 2⟩).1 ∧
      writesTo 4 (loopIter 3 4 [9]
        ⟨false, true, true, none, 0, some [5], 2⟩).1 = 0) ∧
    (Event.errLog "read" ∈ (loopIter 3 4 [9]
        ⟨false, true, true, some [6], 2, none, 0⟩).1 ∧
      writesTo 3 (loopIter 3 4 [9]
        ⟨false, true, true, some [6], 2, none, 0⟩).1 = 0) ∧
    Event.errLog "write" ∈ (loopIter 3 4 [9]
        ⟨false, true, false, some [6], -1, none, 0⟩).1 ∧
    Event.errLog "write" ∈ (loopIter 3 4 [9]
        ⟨false, false, true, none, 0, some [5], -1⟩).1 ∧
    (∀ rest, loopRun 3 4 [9] (⟨true, false, false, none, 0, none, 0⟩ :: rest)
      = (loopIter 3 4 [9] ⟨true, false, false, none, 0, none, 0⟩).1
        ++ loopRun 3 4
            (loopIter 3 4 [9] ⟨true, false, false, none, 0, none, 0⟩).2
            rest) :=
  have TA := c6_steady_state_errors_contained 3 4 [9]
    ⟨true, false, false, none, 0, none, 0⟩ (by decide)
  have TB := c6_steady_state_errors_contained 3 4 [9]
    ⟨false, true, true, none, 0, some [5], 2⟩ (by decide)
  have TC := c6_steady_state_errors_contained 3 4 [9]
    ⟨false, true, true, some [6], 2, none, 0⟩ (by decide)
  have TD := c6_steady_state_errors_contained 3 4 [9]
    ⟨false, true, false, some [6], -1, none, 0⟩ (by decide)
  have TE := c6_steady_state_errors_contained 3 4 [9]
    ⟨false, false, true, none, 0, some [5], -1⟩ (by decide)
  ⟨(TA.1 rfl).1, (TA.1 rfl).2, TB.2.1 rfl rfl rfl, TC.2.2.1 rfl rfl rfl,
    TD.2.2.2.1 rfl rfl [6] rfl (by decide),
    TE.2.2.2.2.1 rfl rfl [5] rfl (by decide),
    TA.2.2.2.2.2⟩

/-- C7: within one wake with both handles ready, the iteration's event
list splits as the `select` return followed by `E1 ++ E2`, where `E1`
contains the single read of `fd1` (and no read of `fd2`) and `E2` the
single read of `fd2` (and no read of `fd1`): handle A's direction is
serviced before handle B's, each ready handle is processed exactly once,
and both are processed in the same iteration. -/
theorem c7_fixed_priority (fd1 fd2 : Nat) (buf : List Nat) (inp : IterIn)
    (hfd : fd1 ≠ fd2) (hsel : inp.selErr = false) (hr1 : inp.r1 = true)
    (hr2 : inp.r2 = true) :
    ∃ E1 E2,
      (loopIter fd1 fd2 buf inp).1 = Event.sysSelect 2 :: (E1 ++ E2) ∧
      readsFrom fd1 E1 = 1 ∧ readsFrom fd2 E1 = 0 ∧
      readsFrom fd1 E2 = 0 ∧ readsFrom fd2 E2 = 1 ∧
      readsFrom fd1 (loopIter fd1 fd2 buf inp).1 = 1 ∧
      readsFrom fd2 (loopIter fd1 fd2 buf inp).1 = 1 := by
  have he : (loopIter fd1 fd2 buf inp).1
      = Event.sysSelect 2
        :: ((serviceDir fd1 fd2 buf inp.read1 inp.wret2).1
          ++ (serviceDir fd2 fd1
                (serviceDir fd1 fd2 buf inp.read1 inp.wret2).2
                inp.read2 inp.wret1).1) := by
    simp [loopIter, hsel, hr1, hr2]
  refine ⟨(serviceDir fd1 fd2 buf inp.read1 inp.wret2).1,
    (serviceDir fd2 fd1 (serviceDir fd1 fd2 buf inp.read1 inp.wret2).2
      inp.read2 inp.wret1).1, he, ?_, ?_, ?_, ?_, ?_, ?_⟩
  · rw [readsFrom_serviceDir]
    simp
  · rw [readsFrom_serviceDir]
    simp [hfd]
  · rw [readsFrom_serviceDir]
    simp [Ne.symm hfd]
  · rw [readsFrom_serviceDir]
    simp
  · rw [he, readsFrom_cons_nonread _ _ _ (by simp [isReadFrom]),
      readsFrom_append, readsFrom_serviceDir, readsFrom_serviceDir]
    simp [Ne.symm hfd]
  · rw [he, readsFrom_cons_nonread _ _ _ (by simp [isReadFrom]),
      readsFrom_append, readsFrom_serviceDir, readsFrom_serviceDir]
    simp [hfd]

/-- Witness for C7: both fds ready, fd 3 delivering `[1]` and fd 4
delivering `[2]`, serviced in that order within one iteration. -/
theorem c7_fixed_priority_witness :
    ∃ E1 E2,
      (loopIter 3 4 [0, 0]
          ⟨false, true, true, some [1], 1, some [2], 1⟩).1
        = Event.sysSelect 2 :: (E1 ++ E2) ∧
      readsFrom 3 E1 = 1 ∧ readsFrom 4 E1 = 0 ∧
      readsFrom 3 E2 = 0 ∧ readsFrom 4 E2 = 1 ∧
      readsFrom 3 (loopIter 3 4 [0, 0]
          ⟨false, true, true, some [1], 1, some [2], 1⟩).1 = 1 ∧
      readsFrom 4 (loopIter 3 4 [0, 0]
          ⟨false, true, true, some [1], 1, some [2], 1⟩).1 = 1 :=
  c7_fixed_priority 3 4 [0, 0]
    ⟨false, true, true, some [1], 1, some [2], 1⟩ (by decide) rfl rfl rfl

theorem traceCount_append (l1 l2 : List Event) :
    traceCount (l1 ++ l2) = traceCount l1 + traceCount l2 := by
  simp [traceCount, List.filter_append]

theorem traceCount_cons_select (k : Int) (l : List Event) :
    traceCount (Event.sysSelect k :: l) = traceCount l := by
  simp [traceCount, List.filter_cons]

/-- C8 counterexample: a successful 3-byte read from fd 3 followed by an
attempted write to fd 4. Exactly one diagnostic trace is printed — the
read trace, naming fd 3 — and no diagnostic at all names the written-to
handle 4: attempted writes emit no trace, contrary to the claim. -/
theorem c8_write_trace_counterexample :
    writesTo 4 (loopIter 3 4 []
        ⟨false, true, false, some [9, 9, 9], 3, none, 0⟩).1 = 1 ∧
    traceCount (loopIter 3 4 []
        ⟨false, true, false, some [9, 9, 9], 3, none, 0⟩).1 = 1 ∧
    tracesFor 4 (loopIter 3 4 []
        ⟨false, true, false, some [9, 9, 9], 3, none, 0⟩).1 = 0 ∧
    Event.traceRead 3 3 ∈ (loopIter 3 4 []
        ⟨false, true, false, some [9, 9, 9], 3, none, 0⟩).1 := by decide

/-- C8 (amended): every successful read on either handle emits a
diagnostic trace naming the source handle and the byte count, but
attempted writes emit no trace of their own: in every iteration the
number of per-packet traces equals the number of successful reads
serviced. -/
theorem c8_read_traces_only (fd1 fd2 : Nat) (buf : List Nat) (inp : IterIn)
    (hsel : inp.selErr = false) :
    (∀ data, inp.r1 = true → inp.read1 = some data → data.length ≤ bufsize →
      Event.traceRead data.length fd1 ∈ (loopIter fd1 fd2 buf inp).1) ∧
    (∀ data, inp.r2 = true → inp.read2 = some data → data.length ≤ bufsize →
      Event.traceRead data.length fd2 ∈ (loopIter fd1 fd2 buf inp).1) ∧
    traceCount (loopIter fd1 fd2 buf inp).1 = succReads inp := by
  refine ⟨?_, ?_, ?_⟩
  · intro data h1 h2 hlen
    have hstored : data.take bufsize = data := List.take_of_length_le hlen
    cases hr2 : inp.r2 <;>
      simp [loopIter, hsel, h1, hr2, h2, serviceDir, hstored]
  · intro data h1 h2 hlen
    have hstored : data.take bufsize = data := List.take_of_length_le hlen
    cases hr1 : inp.r1 <;>
      simp [loopIter, hsel, hr1, h1, h2, serviceDir, hstored]
  · cases hr1 : inp.r1 with
    | false =>
        cases hr2 : inp.r2 with
        | false => simp [loopIter, hsel, hr1, hr2, traceCount, succReads]
        | true =>
            have he : (loopIter fd1 fd2 buf inp).1
                = Event.sysSelect 1
                  :: (serviceDir fd2 fd1 buf inp.read2 inp.wret1).1 := by
              simp [loopIter, hsel, hr1, hr2]
            rw [he, traceCount_cons_select, traceCount_serviceDir]
            simp [succReads, hr1, hr2]
    | true =>
        cases hr2 : inp.r2 with
        | false =>
            have he : (loopIter fd1 fd2 buf inp).1
                = Event.sysSelect 1
                  :: (serviceDir fd1 fd2 buf inp.read1 inp.wret2).1 := by
              simp [loopIter, hsel, hr1, hr2]
            rw [he, traceCount_cons_select, traceCount_serviceDir]
            simp [succReads, hr1, hr2]
        | true =>
            have he : (loopIter fd1 fd2 buf inp).1
                = Event.sysSelect 2
                  :: ((serviceDir fd1 fd2 buf inp.read1 inp.wret2).1
                    ++ (serviceDir fd2 fd1
                          (serviceDir fd1 fd2 buf inp.read1 inp.wret2).2
                          inp.read2 inp.wret1).1) := by
              simp [loopIter, hsel, hr1, hr2]
            rw [he, traceCount_cons_select, traceCount_append,
              traceCount_serviceDir, traceCount_serviceDir]
            simp [succReads, hr1, hr2]

/-- Witness for C8 (amended): both handles ready with successful reads —
1 byte from fd 3 and 2 bytes from fd 4 — each producing its named trace,
with the trace count equal to the two successful reads even though two
writes were attempted. -/
theorem c8_read_traces_only_witness :
    Event.traceRead 1 3 ∈ (loopIter 3 4 [0]
        ⟨false, true, true, some [42], 1, some [6, 7], -2⟩).1 ∧
    Event.traceRead 2 4 ∈ (loopIter 3 4 [0]
        ⟨false, true, true, some [42], 1, some [6, 7], -2⟩).1 ∧
    traceCount (loopIter 3 4 [0]
        ⟨false, true, true, some [42], 1, some [6, 7], -2⟩).1
      = succReads ⟨false, true, true, some [42], 1, some [6, 7], -2⟩ :=
  have T := c8_read_traces_only 3 4 [0]
    ⟨false, true, true, some [42], 1, some [6, 7], -2⟩ rfl
  ⟨T.1 [42] rfl rfl (by decide), T.2.1 [6, 7] rfl rfl (by decide), T.2.2⟩
